import Mathlib

/-!
Shallow embedding of the core game loop of the Hand-Controlled-Predator
repository (file src/unnamed/part_000): the per-tick simulation update
`updateGameLogic`, the spawner `spawnEnemy`, and the shockwave effect
(`spawnShockwave` / the update part of `drawShockwaves`).

Numbers are modelled as exact rationals.  The p5 primitives that are
irrational on rationals (sqrt inside `p.dist`, `sin`, `cos`, `atan2`,
Perlin `noise`) are supplied by an oracle structure `Env`; every theorem
quantifies over the oracle, and concrete witnesses instantiate it with
functions that agree with the true primitives on every call the witness
actually makes.
-/

namespace FishGame

/-- Enemy/player archetype tag (src/types.ts, `FishVariant`). -/
inductive FishVariant
  | prey
  | hunter
  | dasher
  | titan
  | viper
  | player
deriving DecidableEq, Repr

/-- RGB color triple. -/
abbrev Color := ℚ × ℚ × ℚ

/-- `FishEntity` from src/types.ts.  The `id` field is the random draw that
produced the entity id string. -/
structure FishEntity where
  id : ℚ
  x : ℚ
  y : ℚ
  size : ℚ
  vx : ℚ
  vy : ℚ
  color : Color
  speed : ℚ
  noiseOffset : ℚ
  variant : FishVariant
deriving DecidableEq, Repr

/-- `Shockwave` from src/unnamed/part_000 lines 17-25. -/
structure Shockwave where
  x : ℚ
  y : ℚ
  maxRadius : ℚ
  currentRadius : ℚ
  alpha : ℚ
  color : Color
  lineWidth : ℚ
deriving DecidableEq, Repr

/-- External side effects fired by the collision resolver
(`spawnParticles`, `spawnShockwave`, `playSound`, `setScore` calls and the
ambient bubble emission), recorded in call order. -/
inductive GameEvent
  | particleBurst (x y : ℚ) (c : Color) (count : ℕ)
  | shockwaveAt (x y : ℚ) (c : Color)
  | soundEat
  | soundHurt
  | scoreUpdate (s : ℤ)
  | ambientParticle
deriving DecidableEq, Repr

/-- The mutable refs of the sketch that `updateGameLogic` touches, gathered
into one state record: `player`, `playerHealth`, `invulnTimer`, `scoreRef`,
`screenShake`, `damageEffectVal`, the loop-local `maxDanger`,
`dangerIntensity`, `lastSpawnTime`, `enemies`, and the game-over reporting
(`setGameState(GAME_OVER)`, `setFinalSize`, `setCauseOfDeath`). -/
structure GState where
  player : FishEntity
  health : ℚ
  invulnTimer : ℚ
  score : ℤ
  screenShake : ℚ
  damageEffect : ℚ
  maxDanger : ℚ
  dangerIntensity : ℚ
  lastSpawnTime : ℚ
  enemies : List FishEntity
  events : List GameEvent
  gameOver : Bool
  causeOfDeath : Option FishVariant
  finalSize : Option ℤ
deriving DecidableEq, Repr

/-- Oracle for the p5 primitives that have no exact rational value. -/
structure Env where
  sqrt : ℚ → ℚ
  cos : ℚ → ℚ
  sin : ℚ → ℚ
  atan2 : ℚ → ℚ → ℚ
  noise : ℚ → ℚ

/-- p5 `lerp(start, stop, amt)`. -/
def lerp (a b t : ℚ) : ℚ := a + (b - a) * t

/-- p5 `constrain(n, low, high)`. -/
def constrain (v lo hi : ℚ) : ℚ := min (max v lo) hi

/-- p5 `map(value, start1, stop1, start2, stop2)` (no clamping). -/
def mapRange (v a b c d : ℚ) : ℚ := c + (d - c) * ((v - a) / (b - a))

/-- p5 `dist(x1, y1, x2, y2)`, the square root taken by the oracle. -/
def pdist (env : Env) (x1 y1 x2 y2 : ℚ) : ℚ :=
  env.sqrt ((x2 - x1) * (x2 - x1) + (y2 - y1) * (y2 - y1))

/-- p5 `random(a, b)` at draw `r` taken from `[0,1)`. -/
def randIn (r a b : ℚ) : ℚ := a + r * (b - a)

/-- p5 `random(array)` at draw `r`: the element at index `floor(r * len)`. -/
def pickColor (r : ℚ) (cs : List Color) : Color :=
  cs.getD (Int.toNat ⌊r * (cs.length : ℚ)⌋) (0, 0, 0)

/-- `maxHealth` (src/unnamed/part_000 line 70). -/
def maxHealth : ℚ := 100

/-- Per-variant detection range (lines 447-463); default 400. -/
def detectionRange (v : FishVariant) (sf : ℚ) : ℚ :=
  match v with
  | .dasher => 600 * sf
  | .titan => 500 * sf
  | .viper => 450 * sf
  | _ => 400 * sf

/-- Per-variant chase speed multiplier (lines 448-461); default 1.3. -/
def chaseSpeedMultiplier : FishVariant → ℚ
  | .dasher => 2.2
  | .titan => 0.8
  | .viper => 1.6
  | _ => 1.3

/-- Per-variant steering strength (lines 449-462); default 0.08. -/
def steerStrength : FishVariant → ℚ
  | .dasher => 0.04
  | .titan => 0.05
  | .viper => 0.12
  | _ => 0.08

/-- Line 465: `const actuallyPredator = e.size > player.current.size`. -/
def actuallyPredator (playerSize eSize : ℚ) : Bool := eSize > playerSize

/-- Lines 467-508 of `updateGameLogic`: chase steering (with the titan pull
on the player and the viper weave) when actually predatory and in range,
ambient noise wander otherwise.  Returns the updated state (player position,
screen shake, max danger) and the enemy with updated velocity. -/
def steerPhase (env : Env) (sf currentTime : ℚ) (st : GState) (e : FishEntity)
    (distToPlayer : ℚ) : GState × FishEntity :=
  let detR := detectionRange e.variant sf
  if actuallyPredator st.player.size e.size = true ∧ distToPlayer < detR then
    let pullStrength := 0.4 * sf
    let angleToTitan := env.atan2 (e.y - st.player.y) (e.x - st.player.x)
    let pl2 :=
      if e.variant = FishVariant.titan then
        { st.player with
          x := st.player.x + env.cos angleToTitan * pullStrength,
          y := st.player.y + env.sin angleToTitan * pullStrength }
      else st.player
    let shake2 :=
      if e.variant = FishVariant.titan then
        if distToPlayer < 200 * sf then st.screenShake + 0.2 else st.screenShake
      else st.screenShake
    let danger := constrain (mapRange distToPlayer detR (100 * sf) 0 1) 0 1
    let maxD2 := if danger > st.maxDanger then danger else st.maxDanger
    let st2 := { st with player := pl2, screenShake := shake2, maxDanger := maxD2 }
    let angle := env.atan2 (pl2.y - e.y) (pl2.x - e.x)
    let chaseSpeed := e.speed * chaseSpeedMultiplier e.variant
    let playerIsDashing := pl2.speed > 15 * sf
    let trackingStrength := if playerIsDashing then 0.015 else steerStrength e.variant
    let targetVx := env.cos angle * chaseSpeed
    let targetVy := env.sin angle * chaseSpeed
    let oscillation := env.sin (currentTime * 0.01) * (4 * sf)
    let targetVx2 :=
      if e.variant = FishVariant.viper then targetVx + -(env.sin angle) * oscillation
      else targetVx
    let targetVy2 :=
      if e.variant = FishVariant.viper then targetVy + env.cos angle * oscillation
      else targetVy
    (st2, { e with vx := lerp e.vx targetVx2 trackingStrength,
                   vy := lerp e.vy targetVy2 trackingStrength })
  else
    let yNoise := env.noise (e.noiseOffset + currentTime * 0.0005)
    let speedNoise := env.noise (e.noiseOffset + 1000 + currentTime * 0.001)
    let driftY := mapRange yNoise 0 1 (-1.5 * sf) (1.5 * sf)
    let speedMult := mapRange speedNoise 0 1 0.8 1.2
    let intendedDir : ℚ := if e.vx > 0 then 1 else -1
    let wanderSpeed := if e.variant = FishVariant.titan then e.speed * 0.5 else e.speed
    (st, { e with vx := lerp e.vx (intendedDir * wanderSpeed * speedMult) 0.05,
                  vy := lerp e.vy driftY 0.05 })

/-- What the backward loop of `updateGameLogic` does with the enemy at the
current index: kept (with updated fields), spliced out once, or — when a
consumed enemy also satisfies the off-screen test against its stale
reference — spliced out with a second `splice(i, 1)` that removes the
nearest already-processed survivor. -/
inductive EnemyDisp
  | keep (e : FishEntity)
  | gone
  | goneAndTail
deriving DecidableEq, Repr

/-- An enemy is removed from the active list this tick. -/
def EnemyDisp.removed : EnemyDisp → Bool
  | .keep _ => false
  | _ => true

/-- Lines 510-549 of `updateGameLogic`: position integration, the proximity
collision test against the tick-start distance, consume / damage resolution,
and the off-screen prune (which in the source runs after the collision
branch). -/
def resolveEnemy (sf width : ℚ) (st : GState) (distToPlayer : ℚ)
    (e0 : FishEntity) : GState × EnemyDisp :=
  let e := { e0 with x := e0.x + e0.vx, y := e0.y + e0.vy }
  let res :=
    if distToPlayer < st.player.size * 0.6 + e.size * 0.6 then
      if st.player.size ≥ e.size then
        let newScore := st.score + ⌊e.size / sf⌋
        ({ st with
            player := { st.player with size := st.player.size + e.size * 0.1 },
            score := newScore,
            health := min (st.health + 10) maxHealth,
            events := st.events ++
              [GameEvent.scoreUpdate newScore,
               GameEvent.particleBurst e.x e.y e.color 15,
               GameEvent.shockwaveAt e.x e.y e.color,
               GameEvent.soundEat] }, true)
      else
        if st.invulnTimer ≤ 0 then
          let damage : ℚ := if e.variant = FishVariant.titan then 60 else 35
          let newHealth := st.health - damage
          let baseImpact := e.size / sf * 0.8 + e.speed / sf * 2.0
          let st1 := { st with
            health := newHealth,
            damageEffect := 1.0,
            screenShake := min (baseImpact * sf) (50 * sf),
            invulnTimer := 1500,
            events := st.events ++
              [GameEvent.particleBurst st.player.x st.player.y (255, 0, 0) 20,
               GameEvent.soundHurt] }
          if newHealth ≤ 0 then
            ({ st1 with
                gameOver := true,
                finalSize := some ⌊st.player.size / sf⌋,
                causeOfDeath := some e.variant }, false)
          else (st1, false)
        else (st, false)
    else (st, false)
  let offscreen := e.x < -300 * sf ∨ e.x > width + 300 * sf
  if res.2 then
    if offscreen then (res.1, EnemyDisp.goneAndTail) else (res.1, EnemyDisp.gone)
  else
    if offscreen then (res.1, EnemyDisp.gone) else (res.1, EnemyDisp.keep e)

/-- One iteration of the enemy loop (lines 443-549): the tick-start distance
to the player, the steering phase, then movement/collision/prune. -/
def enemyStep (env : Env) (sf width currentTime : ℚ) (st : GState)
    (e : FishEntity) : GState × EnemyDisp :=
  let distToPlayer := pdist env st.player.x st.player.y e.x e.y
  let pr := steerPhase env sf currentTime st e distToPlayer
  resolveEnemy sf width pr.1 distToPlayer pr.2

/-- The whole backward `for` loop over `enemies.current` (index from last to
first, with JS `splice` semantics for removals). -/
def runEnemies (env : Env) (sf width currentTime : ℚ) (st : GState) :
    List FishEntity → GState × List FishEntity
  | [] => (st, [])
  | e :: rest =>
      let pr := runEnemies env sf width currentTime st rest
      let pr2 := enemyStep env sf width currentTime pr.1 e
      match pr2.2 with
      | .keep e2 => (pr2.1, e2 :: pr.2)
      | .gone => (pr2.1, pr.2)
      | .goneAndTail => (pr2.1, pr.2.drop 1)

/-- Lines 417-424 of `updateGameLogic`: the invulnerability countdown and
the passive health regeneration (0.05 per tick, only once the timer has
expired, capped at `maxHealth`). -/
def tickPre (deltaTime : ℚ) (st : GState) : GState :=
  let st1 :=
    { st with invulnTimer :=
        if st.invulnTimer > 0 then st.invulnTimer - deltaTime else st.invulnTimer }
  if st1.health < maxHealth ∧ st1.invulnTimer ≤ 0 then
    { st1 with health := min (st1.health + 0.05) maxHealth }
  else st1

/-- Lines 427-433: the dynamic spawn interval. -/
def activeSpawnInterval (score : ℤ) (numEnemies : ℕ) : ℚ :=
  let base := max 600 (1500 - (score : ℚ) * 5)
  if numEnemies < 8 then 300
  else if numEnemies < 15 then min base 800
  else base

/-- The random draws consumed by one `spawnEnemy` call, each in `[0,1)`. -/
structure SpawnDraws where
  rBranch : ℚ
  rVariant : ℚ
  rSize : ℚ
  rColor : ℚ
  rSpeed : ℚ
  rY : ℚ
  rSide : ℚ
  rNoise : ℚ
  rId : ℚ
deriving DecidableEq, Repr

def preyColors : List Color :=
  [(0, 255, 100), (0, 200, 255), (255, 100, 200), (255, 255, 0), (200, 200, 255)]

def hunterColors : List Color := [(255, 50, 50), (255, 120, 0)]

def dasherColors : List Color := [(0, 255, 255), (200, 255, 255), (255, 255, 0)]

def viperColors : List Color := [(150, 255, 0), (180, 200, 50), (100, 200, 100)]

def titanColors : List Color := [(50, 70, 90), (80, 50, 50), (30, 30, 40)]

/-- `spawnEnemy` (lines 565-628). -/
def spawnEnemy (d : SpawnDraws) (pSize sf width height : ℚ) : FishEntity :=
  let isPrey := d.rBranch > 0.4
  let vsc :=
    if isPrey then
      let size0 := randIn d.rSize (pSize * 0.3) (pSize * 0.8)
      (FishVariant.prey, constrain size0 (10 * sf) (300 * sf),
       pickColor d.rColor preyColors, randIn d.rSpeed 3 6 * sf)
    else if d.rVariant < 0.35 then
      (FishVariant.hunter, randIn d.rSize (pSize * 1.1) (pSize * 2.0),
       pickColor d.rColor hunterColors, randIn d.rSpeed 2 4 * sf)
    else if d.rVariant < 0.65 then
      (FishVariant.dasher, randIn d.rSize (pSize * 1.0) (pSize * 1.4),
       pickColor d.rColor dasherColors, randIn d.rSpeed 5 7 * sf)
    else if d.rVariant < 0.85 then
      (FishVariant.viper, randIn d.rSize (pSize * 1.1) (pSize * 1.6),
       pickColor d.rColor viperColors, randIn d.rSpeed 3 5 * sf)
    else
      (FishVariant.titan, randIn d.rSize (pSize * 1.8) (pSize * 3.0),
       pickColor d.rColor titanColors, randIn d.rSpeed 0.5 1.5 * sf)
  let y := randIn d.rY (50 * sf) (height - 50 * sf)
  let fromLeft := d.rSide > 0.5
  { id := d.rId,
    x := if fromLeft then -vsc.2.1 * 2 else width + vsc.2.1 * 2,
    y := y,
    size := vsc.2.1,
    vx := if fromLeft then vsc.2.2.2 else -vsc.2.2.2,
    vy := 0,
    color := vsc.2.2.1,
    speed := vsc.2.2.2,
    noiseOffset := randIn d.rNoise 0 1000,
    variant := vsc.1 }

/-- `updateGameLogic` (lines 412-563): timer/regen, dynamic spawn, the enemy
loop, the danger-intensity smoothing and the ambient bubble emission.
`ambientR` is the draw for the `p.random() < 0.1` ambient particle. -/
def updateGameLogic (env : Env) (sf width height currentTime deltaTime : ℚ)
    (d : SpawnDraws) (ambientR : ℚ) (st0 : GState) : GState :=
  let st := tickPre deltaTime st0
  let interval := activeSpawnInterval st.score st.enemies.length
  let st :=
    if currentTime - st.lastSpawnTime > interval then
      { st with
        enemies := st.enemies ++ [spawnEnemy d st.player.size sf width height],
        lastSpawnTime := currentTime }
    else st
  let st := { st with maxDanger := 0 }
  let pr := runEnemies env sf width currentTime st st.enemies
  let st := { pr.1 with
    enemies := pr.2,
    dangerIntensity := lerp pr.1.dangerIntensity pr.1.maxDanger 0.1 }
  if ambientR < 0.1 then { st with events := st.events ++ [GameEvent.ambientParticle] }
  else st

/-- `spawnShockwave` (lines 630-641); `r` is the draw for
`p.random(80, 120)`. -/
def spawnShockwave (r sf x y : ℚ) (c : Color) : Shockwave :=
  { x := x, y := y,
    maxRadius := randIn r 80 120 * sf,
    currentRadius := 10 * sf,
    alpha := 200,
    color := c,
    lineWidth := 8 * sf }

/-- The per-tick mutation of one shockwave inside `drawShockwaves`
(lines 653-657): ease-out expansion, alpha fade, line-width shrink. -/
def shockwaveTick (sf : ℚ) (sw : Shockwave) : Shockwave :=
  { sw with
    currentRadius := sw.currentRadius + (sw.maxRadius - sw.currentRadius) * 0.15 + 1 * sf,
    alpha := sw.alpha - 10,
    lineWidth := sw.lineWidth * 0.9 }

/-- The removal test of `drawShockwaves` (line 659), applied after the
mutation. -/
def shockwaveRemoved (sw : Shockwave) : Bool :=
  sw.alpha ≤ 0 || sw.lineWidth < 0.5

/-- The whole shockwave pass of `drawShockwaves`: every wave is mutated and
the ones crossing the removal thresholds are spliced out. -/
def stepShockwaves (sf : ℚ) (l : List Shockwave) : List Shockwave :=
  (l.map (shockwaveTick sf)).filter (fun sw => !shockwaveRemoved sw)

/-- `n` ticks of the shockwave mutation applied to one wave. -/
def shockwaveIter (sf : ℚ) (sw : Shockwave) : ℕ → Shockwave
  | 0 => sw
  | n + 1 => shockwaveTick sf (shockwaveIter sf sw n)

/-! ### Helper lemmas about the two phases of the enemy loop -/

theorem steerPhase_state_fields (env : Env) (sf ct : ℚ) (st : GState) (e : FishEntity)
    (dp : ℚ) :
    (steerPhase env sf ct st e dp).1.player.size = st.player.size
    ∧ (steerPhase env sf ct st e dp).1.player.speed = st.player.speed
    ∧ (steerPhase env sf ct st e dp).1.health = st.health
    ∧ (steerPhase env sf ct st e dp).1.invulnTimer = st.invulnTimer
    ∧ (steerPhase env sf ct st e dp).1.score = st.score
    ∧ (steerPhase env sf ct st e dp).1.gameOver = st.gameOver := by
  refine ⟨?_, ?_, ?_, ?_, ?_, ?_⟩ <;> (unfold steerPhase; dsimp only; split)
  · dsimp only; split <;> rfl
  · rfl
  · dsimp only; split <;> rfl
  all_goals rfl

theorem steerPhase_enemy_fields (env : Env) (sf ct : ℚ) (st : GState) (e : FishEntity)
    (dp : ℚ) :
    (steerPhase env sf ct st e dp).2.size = e.size
    ∧ (steerPhase env sf ct st e dp).2.speed = e.speed
    ∧ (steerPhase env sf ct st e dp).2.color = e.color
    ∧ (steerPhase env sf ct st e dp).2.variant = e.variant
    ∧ (steerPhase env sf ct st e dp).2.noiseOffset = e.noiseOffset
    ∧ (steerPhase env sf ct st e dp).2.id = e.id
    ∧ (steerPhase env sf ct st e dp).2.x = e.x
    ∧ (steerPhase env sf ct st e dp).2.y = e.y := by
  refine ⟨?_, ?_, ?_, ?_, ?_, ?_, ?_, ?_⟩ <;>
    (unfold steerPhase; dsimp only; split <;> rfl)

theorem resolveEnemy_consume (sf width : ℚ) (st : GState) (dp : ℚ) (e : FishEntity)
    (hdist : dp < st.player.size * 0.6 + e.size * 0.6)
    (hsize : st.player.size ≥ e.size) :
    (resolveEnemy sf width st dp e).1.player.size = st.player.size + e.size * 0.1
    ∧ (resolveEnemy sf width st dp e).1.score = st.score + ⌊e.size / sf⌋
    ∧ (resolveEnemy sf width st dp e).1.health = min (st.health + 10) maxHealth
    ∧ (resolveEnemy sf width st dp e).1.invulnTimer = st.invulnTimer
    ∧ (resolveEnemy sf width st dp e).2.removed = true := by
  unfold resolveEnemy
  dsimp only
  rw [if_pos hdist, if_pos hsize]
  dsimp only
  rw [if_pos (Eq.refl true)]
  split <;> exact ⟨rfl, rfl, rfl, rfl, rfl⟩

theorem resolveEnemy_damage (sf width : ℚ) (st : GState) (dp : ℚ) (e : FishEntity)
    (hdist : dp < st.player.size * 0.6 + e.size * 0.6)
    (hsize : ¬ st.player.size ≥ e.size)
    (hinv : st.invulnTimer ≤ 0) :
    (resolveEnemy sf width st dp e).1.health
        = st.health - (if e.variant = FishVariant.titan then 60 else 35)
    ∧ (resolveEnemy sf width st dp e).1.invulnTimer = 1500
    ∧ (resolveEnemy sf width st dp e).1.player.size = st.player.size
    ∧ (st.health - (if e.variant = FishVariant.titan then 60 else 35) ≤ 0 →
        (resolveEnemy sf width st dp e).1.gameOver = true) := by
  unfold resolveEnemy
  dsimp only
  rw [if_pos hdist, if_neg hsize, if_pos hinv]
  by_cases hdead : st.health - (if e.variant = FishVariant.titan then 60 else 35) ≤ 0
  · rw [if_pos hdead]
    dsimp only
    rw [if_neg Bool.false_ne_true]
    split <;> exact ⟨rfl, rfl, rfl, fun _ => rfl⟩
  · rw [if_neg hdead]
    dsimp only
    rw [if_neg Bool.false_ne_true]
    split <;> exact ⟨rfl, rfl, rfl, fun hc => absurd hc hdead⟩

theorem resolveEnemy_blocked (sf width : ℚ) (st : GState) (dp : ℚ) (e : FishEntity)
    (hsize : ¬ st.player.size ≥ e.size)
    (hinv : ¬ st.invulnTimer ≤ 0) :
    (resolveEnemy sf width st dp e).1 = st := by
  unfold resolveEnemy
  dsimp only
  split <;> (dsimp only; rw [if_neg Bool.false_ne_true]; split <;> rfl)

theorem resolveEnemy_noCollision (sf width : ℚ) (st : GState) (dp : ℚ) (e : FishEntity)
    (hdist : ¬ dp < st.player.size * 0.6 + e.size * 0.6) :
    (resolveEnemy sf width st dp e).1 = st := by
  unfold resolveEnemy
  dsimp only
  rw [if_neg hdist]
  dsimp only
  rw [if_neg Bool.false_ne_true]
  split <;> rfl

/-! ### C8: predator classification boundary -/

/-- C8: an enemy is classified predatory exactly when its size strictly
exceeds the player's current size; in particular size `player.size - ε`
(`ε > 0`) is never predatory and `player.size + ε` always is. -/
theorem C8_predator_boundary :
    (∀ ps s : ℚ, actuallyPredator ps s = true ↔ s > ps)
    ∧ ∀ ps ε : ℚ, 0 < ε →
        actuallyPredator ps (ps - ε) = false ∧ actuallyPredator ps (ps + ε) = true := by
  constructor
  · intro ps s
    simp [actuallyPredator]
  · intro ps ε hε
    constructor
    · simp only [actuallyPredator, decide_eq_false_iff_not, not_lt]
      linarith
    · simp only [actuallyPredator, decide_eq_true_eq]
      linarith

/-- Witness for C8 at `ps = 20`, `ε = 1`. -/
theorem C8_predator_boundary_witness :
    (0 : ℚ) < 1
    ∧ actuallyPredator 20 (20 - 1) = false ∧ actuallyPredator 20 (20 + 1) = true :=
  ⟨by norm_num, C8_predator_boundary.2 20 1 (by norm_num)⟩

/-! ### C2: spawn branch and variant bands -/

/-- C2 (amended): the spawner takes the prey branch exactly when the branch
draw exceeds 0.4 (so the predator branch has probability 40%, not 60%);
within the predator branch the variant draw bands are hunter `[0, 0.35)`,
dasher `[0.35, 0.65)`, viper `[0.65, 0.85)`, titan `[0.85, ·)`. -/
theorem C2_spawn_bands (d : SpawnDraws) (pSize sf width height : ℚ) :
    ((spawnEnemy d pSize sf width height).variant = FishVariant.prey ↔
        0.4 < d.rBranch)
    ∧ ((spawnEnemy d pSize sf width height).variant = FishVariant.hunter ↔
        d.rBranch ≤ 0.4 ∧ d.rVariant < 0.35)
    ∧ ((spawnEnemy d pSize sf width height).variant = FishVariant.dasher ↔
        d.rBranch ≤ 0.4 ∧ 0.35 ≤ d.rVariant ∧ d.rVariant < 0.65)
    ∧ ((spawnEnemy d pSize sf width height).variant = FishVariant.viper ↔
        d.rBranch ≤ 0.4 ∧ 0.65 ≤ d.rVariant ∧ d.rVariant < 0.85)
    ∧ ((spawnEnemy d pSize sf width height).variant = FishVariant.titan ↔
        d.rBranch ≤ 0.4 ∧ 0.85 ≤ d.rVariant) := by
  unfold spawnEnemy
  dsimp only
  split_ifs with h1 h2 h3 h4 <;> simp_all [not_lt]
  all_goals repeat' constructor
  all_goals try intro h
  all_goals linarith

/-- The spawn draws of the C2 counterexample: branch draw 0.5. -/
def c2draws : SpawnDraws := ⟨0.5, 0, 0, 0, 0, 0, 0, 0, 0⟩

/-- C2 counterexample: the branch draw 0.5 lies inside the claimed 60%
predator band `[0, 0.6)`, yet `spawnEnemy` takes the prey branch. -/
theorem C2_counterexample :
    (spawnEnemy c2draws 20 1 800 600).variant = FishVariant.prey
    ∧ c2draws.rBranch < 0.6 := by
  constructor
  · norm_num [spawnEnemy, c2draws]
  · norm_num [c2draws]

/-! ### C7: dynamic spawn interval -/

theorem tickPre_fields (dt : ℚ) (st : GState) :
    (tickPre dt st).score = st.score
    ∧ (tickPre dt st).enemies = st.enemies
    ∧ (tickPre dt st).lastSpawnTime = st.lastSpawnTime
    ∧ (tickPre dt st).player = st.player := by
  refine ⟨?_, ?_, ?_, ?_⟩ <;> (unfold tickPre; dsimp only; split <;> split <;> rfl)

theorem runEnemies_length_le (env : Env) (sf width ct : ℚ) (st : GState)
    (es : List FishEntity) :
    (runEnemies env sf width ct st es).2.length ≤ es.length := by
  induction es generalizing st with
  | nil => simp [runEnemies]
  | cons e rest ih =>
      rw [runEnemies]
      try dsimp only
      rcases h : (enemyStep env sf width ct (runEnemies env sf width ct st rest).1 e).2 with
        e2 | _ | _ <;> simp only [h] <;> try dsimp only
      · exact Nat.succ_le_succ (ih st)
      · exact Nat.le_succ_of_le (ih st)
      · refine Nat.le_succ_of_le (le_trans ?_ (ih st))
        simp [Nat.sub_le]

/-- C7: the dynamic spawn interval is `max(600, 1500 − 5·score)`, overridden
to 300 when fewer than 8 enemies are alive and capped at 800 when fewer than
15 are; with score 0 and 3 live enemies it is 300; one tick adds at most one
enemy, and only when the time since the last spawn exceeds the interval. -/
theorem C7_spawn_interval :
    (∀ (s : ℤ) (n : ℕ),
        (n < 8 → activeSpawnInterval s n = 300)
        ∧ (8 ≤ n → n < 15 →
            activeSpawnInterval s n = min (max 600 (1500 - (s : ℚ) * 5)) 800)
        ∧ (15 ≤ n → activeSpawnInterval s n = max 600 (1500 - (s : ℚ) * 5)))
    ∧ activeSpawnInterval 0 3 = 300
    ∧ ∀ (env : Env) (sf width height ct dt ar : ℚ) (d : SpawnDraws) (st : GState),
        (updateGameLogic env sf width height ct dt d ar st).enemies.length
          ≤ st.enemies.length +
              (if ct - st.lastSpawnTime >
                  activeSpawnInterval st.score st.enemies.length then 1 else 0) := by
  refine ⟨?_, ?_, ?_⟩
  · intro s n
    refine ⟨?_, ?_, ?_⟩
    · intro h
      unfold activeSpawnInterval
      rw [if_pos h]
    · intro h8 h15
      unfold activeSpawnInterval
      rw [if_neg (Nat.not_lt.mpr h8), if_pos h15]
    · intro h15
      unfold activeSpawnInterval
      rw [if_neg (Nat.not_lt.mpr (le_trans (by norm_num) h15)),
        if_neg (Nat.not_lt.mpr h15)]
  · norm_num [activeSpawnInterval]
  · intro env sf width height ct dt ar d st
    obtain ⟨hsc, hen, hls, hpl⟩ := tickPre_fields dt st
    unfold updateGameLogic
    dsimp only
    rw [hsc, hen, hls, hpl]
    by_cases hspawn :
        ct - st.lastSpawnTime > activeSpawnInterval st.score st.enemies.length
    · rw [if_pos hspawn, if_pos hspawn]
      try dsimp only
      split <;>
        (try dsimp only
         refine le_trans (runEnemies_length_le _ _ _ _ _ _) ?_
         simp [hen])
    · rw [if_neg hspawn, if_neg hspawn]
      try dsimp only
      split <;>
        (try dsimp only
         refine le_trans (runEnemies_length_le _ _ _ _ _ _) ?_
         simp [hen])

/-- Witness for C7: the interval characterization instantiated at
score 0 with 3 and 20 live enemies. -/
theorem C7_spawn_interval_witness :
    activeSpawnInterval 0 3 = 300
    ∧ activeSpawnInterval 0 20 = max 600 (1500 - (0 : ℚ) * 5) :=
  ⟨C7_spawn_interval.2.1, (C7_spawn_interval.1 0 20).2.2 (by norm_num)⟩

end FishGame

namespace FishGame

/-! ### C9: shockwave life cycle -/

/-- The shockwave of the C9 scenario: `maxRadius = 100` (draw 0.5 of
`random(80, 120)` at scale 1), `currentRadius = 10`, `alpha = 200`,
`lineWidth = 8`. -/
def c9sw : Shockwave := spawnShockwave 0.5 1 0 0 (0, 0, 0)

theorem c9_maxRadius (n : ℕ) : (shockwaveIter 1 c9sw n).maxRadius = 100 := by
  induction n with
  | zero => norm_num [shockwaveIter, c9sw, spawnShockwave, randIn]
  | succ n ih => simp [shockwaveIter, shockwaveTick, ih]

theorem c9_alpha (n : ℕ) : (shockwaveIter 1 c9sw n).alpha = 200 - 10 * (n : ℚ) := by
  induction n with
  | zero => norm_num [shockwaveIter, c9sw, spawnShockwave]
  | succ n ih =>
      simp only [shockwaveIter, shockwaveTick, ih]
      push_cast
      ring

theorem c9_lineWidth (n : ℕ) :
    (shockwaveIter 1 c9sw n).lineWidth = 8 * (9 / 10) ^ n := by
  induction n with
  | zero => norm_num [shockwaveIter, c9sw, spawnShockwave]
  | succ n ih =>
      simp only [shockwaveIter, shockwaveTick, ih, pow_succ]
      norm_num
      ring

theorem c9_radius_lt (n : ℕ) : (shockwaveIter 1 c9sw n).currentRadius < 320 / 3 := by
  induction n with
  | zero => norm_num [shockwaveIter, c9sw, spawnShockwave]
  | succ n ih =>
      have hm := c9_maxRadius n
      simp only [shockwaveIter, shockwaveTick, hm]
      norm_num
      linarith

theorem c9_radius_closed (n : ℕ) :
    (shockwaveIter 1 c9sw n).currentRadius = 320 / 3 - 290 / 3 * (17 / 20) ^ n := by
  induction n with
  | zero => norm_num [shockwaveIter, c9sw, spawnShockwave]
  | succ n ih =>
      have hm := c9_maxRadius n
      simp only [shockwaveIter, shockwaveTick, hm, ih, pow_succ]
      ring_nf

/-- C9: for the shockwave spawned with `maxRadius = 100`,
`currentRadius = 10`: the radius strictly increases on every tick; the wave
is not removed on ticks 1..19; its alpha reaches 0 at tick 20 (alpha decays
by the fixed step 10 from 200), at which point it is removed; by then the
radius has passed 100. -/
theorem C9_shockwave_lifecycle :
    (∀ n : ℕ, (shockwaveIter 1 c9sw n).currentRadius
        < (shockwaveIter 1 c9sw (n + 1)).currentRadius)
    ∧ (∀ n : ℕ, 1 ≤ n → n ≤ 19 → shockwaveRemoved (shockwaveIter 1 c9sw n) = false)
    ∧ (shockwaveIter 1 c9sw 20).alpha ≤ 0
    ∧ shockwaveRemoved (shockwaveIter 1 c9sw 20) = true
    ∧ (shockwaveIter 1 c9sw 20).currentRadius > 100 := by
  refine ⟨?_, ?_, ?_, ?_, ?_⟩
  · intro n
    have ih := c9_radius_lt n
    have hm := c9_maxRadius n
    simp only [shockwaveIter, shockwaveTick, hm]
    norm_num
    linarith
  · intro n h1 h19
    have ha := c9_alpha n
    have hl := c9_lineWidth n
    have hcast : (n : ℚ) ≤ 19 := by exact_mod_cast h19
    have hpow : ((9 : ℚ) / 10) ^ 19 ≤ (9 / 10) ^ n :=
      pow_le_pow_of_le_one (by norm_num) (by norm_num) h19
    simp only [shockwaveRemoved, ha, hl, Bool.or_eq_false_iff,
      decide_eq_false_iff_not, not_lt, not_le]
    constructor
    · linarith
    · calc (0.5 : ℚ) ≤ 8 * (9 / 10) ^ 19 := by norm_num
        _ ≤ 8 * (9 / 10) ^ n := by linarith
  · rw [c9_alpha 20]
    norm_num
  · have ha := c9_alpha 20
    simp only [shockwaveRemoved, ha]
    norm_num
  · rw [c9_radius_closed 20]
    norm_num

/-- Witness for C9: the bounded-quantifier parts instantiated at tick 10. -/
theorem C9_shockwave_lifecycle_witness :
    (1 ≤ 10 ∧ 10 ≤ 19)
    ∧ shockwaveRemoved (shockwaveIter 1 c9sw 10) = false
    ∧ (shockwaveIter 1 c9sw 10).currentRadius
        < (shockwaveIter 1 c9sw 11).currentRadius :=
  ⟨⟨by decide, by decide⟩, C9_shockwave_lifecycle.2.1 10 (by decide) (by decide),
    C9_shockwave_lifecycle.1 10⟩

end FishGame

namespace FishGame

/-! ### C1: consume resolution -/

/-- C1: when the tick-start distance is below the collision threshold and the
player's size is at least the enemy's (ties favor the player), the enemy
loop iteration grows the player by exactly 10% of the enemy size, adds
exactly `floor(enemySize / scale)` to the score, restores 10 health capped
at 100, and removes the enemy from the active list. -/
theorem C1_consume_effects (env : Env) (sf width ct : ℚ) (st : GState) (e : FishEntity)
    (hdist : pdist env st.player.x st.player.y e.x e.y
        < st.player.size * 0.6 + e.size * 0.6)
    (hsize : st.player.size ≥ e.size) :
    (enemyStep env sf width ct st e).1.player.size = st.player.size + e.size * 0.1
    ∧ (enemyStep env sf width ct st e).1.score = st.score + ⌊e.size / sf⌋
    ∧ (enemyStep env sf width ct st e).1.health = min (st.health + 10) maxHealth
    ∧ (enemyStep env sf width ct st e).2.removed = true := by
  unfold enemyStep
  dsimp only
  obtain ⟨hps, hpspeed, hh, hit, hsc, hgo⟩ :=
    steerPhase_state_fields env sf ct st e (pdist env st.player.x st.player.y e.x e.y)
  obtain ⟨hesize, hespeed, hecol, hevar, heno, heid, hex, hey⟩ :=
    steerPhase_enemy_fields env sf ct st e (pdist env st.player.x st.player.y e.x e.y)
  have hdist2 : pdist env st.player.x st.player.y e.x e.y
      < (steerPhase env sf ct st e (pdist env st.player.x st.player.y e.x e.y)).1.player.size * 0.6
        + (steerPhase env sf ct st e (pdist env st.player.x st.player.y e.x e.y)).2.size * 0.6 := by
    rw [hps, hesize]; exact hdist
  have hsize2 : (steerPhase env sf ct st e (pdist env st.player.x st.player.y e.x e.y)).1.player.size
      ≥ (steerPhase env sf ct st e (pdist env st.player.x st.player.y e.x e.y)).2.size := by
    rw [hps, hesize]; exact hsize
  obtain ⟨c1, c2, c3, c4, c5⟩ := resolveEnemy_consume sf width _ _ _ hdist2 hsize2
  refine ⟨?_, ?_, ?_, ?_⟩
  · rw [c1, hps, hesize]
  · rw [c2, hsc, hesize]
  · rw [c3, hh]
  · exact c5

/-- A shared concrete oracle for witnesses where player and enemy share a
position: distance 0, `atan2(0,0) = 0`, `cos 0 = 1`, `sin 0 = 0`, a mid
noise value. -/
def nearEnv : Env := ⟨fun _ => 0, fun _ => 1, fun _ => 0, fun _ _ => 0, fun _ => 0.5⟩

/-- The initial player of the sketch (size 20). -/
def basePlayer : FishEntity := ⟨0, 0, 0, 20, 0, 0, (255, 255, 255), 0, 0, FishVariant.player⟩

/-- A mid-session state: health 50, no invulnerability, score 0. -/
def baseState : GState := ⟨basePlayer, 50, 0, 0, 0, 0, 0, 0, 0, [], [], false, none, none⟩

/-- A small prey co-located with the player. -/
def c1enemy : FishEntity := ⟨1, 0, 0, 5, 0, 0, (0, 255, 100), 0, 0, FishVariant.prey⟩

/-- Witness for C1: the player (size 20) eats a size-5 prey at distance 0. -/
theorem C1_consume_effects_witness :
    (pdist nearEnv baseState.player.x baseState.player.y c1enemy.x c1enemy.y
        < baseState.player.size * 0.6 + c1enemy.size * 0.6)
    ∧ baseState.player.size ≥ c1enemy.size
    ∧ ((enemyStep nearEnv 1 800 0 baseState c1enemy).1.player.size
          = baseState.player.size + c1enemy.size * 0.1
        ∧ (enemyStep nearEnv 1 800 0 baseState c1enemy).1.score
          = baseState.score + ⌊c1enemy.size / 1⌋
        ∧ (enemyStep nearEnv 1 800 0 baseState c1enemy).1.health
          = min (baseState.health + 10) maxHealth
        ∧ (enemyStep nearEnv 1 800 0 baseState c1enemy).2.removed = true) :=
  ⟨by norm_num [pdist, nearEnv, baseState, basePlayer, c1enemy],
   by norm_num [baseState, basePlayer, c1enemy],
   C1_consume_effects nearEnv 1 800 0 baseState c1enemy
     (by norm_num [pdist, nearEnv, baseState, basePlayer, c1enemy])
     (by norm_num [baseState, basePlayer, c1enemy])⟩

/-! ### C4: damage rules and invulnerability -/

/-- C4: against a larger enemy, health only changes when the invulnerability
timer has expired; the damage is flat per variant (60 for titan, 35
otherwise), independent of size; right after damage the timer is exactly
1500, and while positive it decreases by `deltaTime` each tick. -/
theorem C4_damage_rules (env : Env) (sf width ct : ℚ) (st : GState) (e : FishEntity) :
    (e.size > st.player.size → 0 < st.invulnTimer →
        (enemyStep env sf width ct st e).1.health = st.health
        ∧ (enemyStep env sf width ct st e).1.invulnTimer = st.invulnTimer)
    ∧ (e.size > st.player.size → st.invulnTimer ≤ 0 →
        pdist env st.player.x st.player.y e.x e.y
            < st.player.size * 0.6 + e.size * 0.6 →
        (enemyStep env sf width ct st e).1.health
            = st.health - (if e.variant = FishVariant.titan then 60 else 35)
        ∧ (enemyStep env sf width ct st e).1.invulnTimer = 1500)
    ∧ ∀ (dt : ℚ) (st2 : GState), 0 < dt → 0 < st2.invulnTimer →
        (tickPre dt st2).invulnTimer = st2.invulnTimer - dt
        ∧ (tickPre dt st2).invulnTimer < st2.invulnTimer := by
  obtain ⟨hps, hpspeed, hh, hit, hsc, hgo⟩ :=
    steerPhase_state_fields env sf ct st e (pdist env st.player.x st.player.y e.x e.y)
  obtain ⟨hesize, hespeed, hecol, hevar, heno, heid, hex, hey⟩ :=
    steerPhase_enemy_fields env sf ct st e (pdist env st.player.x st.player.y e.x e.y)
  refine ⟨?_, ?_, ?_⟩
  · intro hbig hinv
    unfold enemyStep
    dsimp only
    have hsize2 : ¬ (steerPhase env sf ct st e
        (pdist env st.player.x st.player.y e.x e.y)).1.player.size
        ≥ (steerPhase env sf ct st e (pdist env st.player.x st.player.y e.x e.y)).2.size := by
      rw [hps, hesize]; exact not_le.mpr hbig
    have hinv2 : ¬ (steerPhase env sf ct st e
        (pdist env st.player.x st.player.y e.x e.y)).1.invulnTimer ≤ 0 := by
      rw [hit]; exact not_le.mpr hinv
    rw [resolveEnemy_blocked _ _ _ _ _ hsize2 hinv2]
    exact ⟨hh, hit⟩
  · intro hbig hinv hdist
    unfold enemyStep
    dsimp only
    have hdist2 : pdist env st.player.x st.player.y e.x e.y
        < (steerPhase env sf ct st e (pdist env st.player.x st.player.y e.x e.y)).1.player.size * 0.6
          + (steerPhase env sf ct st e (pdist env st.player.x st.player.y e.x e.y)).2.size * 0.6 := by
      rw [hps, hesize]; exact hdist
    have hsize2 : ¬ (steerPhase env sf ct st e
        (pdist env st.player.x st.player.y e.x e.y)).1.player.size
        ≥ (steerPhase env sf ct st e (pdist env st.player.x st.player.y e.x e.y)).2.size := by
      rw [hps, hesize]; exact not_le.mpr hbig
    have hinv2 : (steerPhase env sf ct st e
        (pdist env st.player.x st.player.y e.x e.y)).1.invulnTimer ≤ 0 := by
      rw [hit]; exact hinv
    obtain ⟨d1, d2, d3, d4⟩ := resolveEnemy_damage _ _ _ _ _ hdist2 hsize2 hinv2
    constructor
    · rw [d1, hh, hevar]
    · exact d2
  · intro dt st2 hdt hpos
    have h1 : (tickPre dt st2).invulnTimer = st2.invulnTimer - dt := by
      unfold tickPre
      dsimp only
      split
      · split <;> rfl
      · rename_i hneg
        exact absurd hpos hneg
    exact ⟨h1, by rw [h1]; linarith⟩

/-- A titan co-located with the player, larger than every witness player. -/
def titan50 : FishEntity := ⟨2, 0, 0, 50, 0, 0, (50, 70, 90), 0, 0, FishVariant.titan⟩

/-- `baseState` with a running invulnerability window. -/
def invulnState : GState := { baseState with invulnTimer := 100 }

/-- Witness for C4: a titan hit while invulnerable changes nothing; the same
hit with the timer expired deals exactly 60 and sets the timer to 1500; a
positive timer decreases by `deltaTime`. -/
theorem C4_damage_rules_witness :
    (titan50.size > invulnState.player.size ∧ 0 < invulnState.invulnTimer
      ∧ (enemyStep nearEnv 1 800 0 invulnState titan50).1.health = invulnState.health
      ∧ (enemyStep nearEnv 1 800 0 invulnState titan50).1.invulnTimer
          = invulnState.invulnTimer)
    ∧ (baseState.invulnTimer ≤ 0
      ∧ (enemyStep nearEnv 1 800 0 baseState titan50).1.health
          = baseState.health - (if titan50.variant = FishVariant.titan then 60 else 35)
      ∧ (enemyStep nearEnv 1 800 0 baseState titan50).1.invulnTimer = 1500)
    ∧ ((tickPre 16 invulnState).invulnTimer = invulnState.invulnTimer - 16
      ∧ (tickPre 16 invulnState).invulnTimer < invulnState.invulnTimer) :=
  ⟨⟨by norm_num [titan50, invulnState, baseState, basePlayer],
    by norm_num [invulnState, baseState],
    (C4_damage_rules nearEnv 1 800 0 invulnState titan50).1
      (by norm_num [titan50, invulnState, baseState, basePlayer])
      (by norm_num [invulnState, baseState])⟩,
   ⟨by norm_num [baseState],
    (C4_damage_rules nearEnv 1 800 0 baseState titan50).2.1
      (by norm_num [titan50, baseState, basePlayer])
      (by norm_num [baseState])
      (by norm_num [pdist, nearEnv, baseState, basePlayer, titan50])⟩,
   (C4_damage_rules nearEnv 1 800 0 baseState titan50).2.2 16 invulnState
     (by norm_num) (by norm_num [invulnState, baseState])⟩

end FishGame

namespace FishGame

/-! ### C3: health bounds -/

theorem enemyStep_health_le (env : Env) (sf width ct : ℚ) (st : GState)
    (e : FishEntity) (h : st.health ≤ 100) :
    (enemyStep env sf width ct st e).1.health ≤ 100 := by
  unfold enemyStep
  dsimp only
  obtain ⟨hps, hpspeed, hh, hit, hsc, hgo⟩ :=
    steerPhase_state_fields env sf ct st e (pdist env st.player.x st.player.y e.x e.y)
  by_cases hdist : pdist env st.player.x st.player.y e.x e.y
      < (steerPhase env sf ct st e (pdist env st.player.x st.player.y e.x e.y)).1.player.size * 0.6
        + (steerPhase env sf ct st e (pdist env st.player.x st.player.y e.x e.y)).2.size * 0.6
  · by_cases hsz : (steerPhase env sf ct st e
        (pdist env st.player.x st.player.y e.x e.y)).1.player.size
        ≥ (steerPhase env sf ct st e (pdist env st.player.x st.player.y e.x e.y)).2.size
    · obtain ⟨-, -, c3, -, -⟩ := resolveEnemy_consume _ _ _ _ _ hdist hsz
      rw [c3]
      have : maxHealth = 100 := rfl
      rw [this]
      exact min_le_right _ _
    · by_cases hinv : (steerPhase env sf ct st e
          (pdist env st.player.x st.player.y e.x e.y)).1.invulnTimer ≤ 0
      · obtain ⟨d1, -, -, -⟩ := resolveEnemy_damage _ _ _ _ _ hdist hsz hinv
        rw [d1, hh]
        have hd : (0 : ℚ) ≤ (if (steerPhase env sf ct st e
            (pdist env st.player.x st.player.y e.x e.y)).2.variant
              = FishVariant.titan then 60 else 35) := by
          split <;> norm_num
        linarith
      · rw [resolveEnemy_blocked _ _ _ _ _ hsz hinv, hh]
        exact h
  · rw [resolveEnemy_noCollision _ _ _ _ _ hdist, hh]
    exact h

theorem runEnemies_fst_cons (env : Env) (sf width ct : ℚ) (st : GState)
    (e : FishEntity) (rest : List FishEntity) :
    (runEnemies env sf width ct st (e :: rest)).1
      = (enemyStep env sf width ct (runEnemies env sf width ct st rest).1 e).1 := by
  rw [runEnemies]
  try dsimp only
  rcases h : (enemyStep env sf width ct (runEnemies env sf width ct st rest).1 e).2 with
    e2 | _ | _ <;> simp only [h]

theorem runEnemies_health_le (env : Env) (sf width ct : ℚ) (st : GState)
    (es : List FishEntity) (h : st.health ≤ 100) :
    (runEnemies env sf width ct st es).1.health ≤ 100 := by
  induction es generalizing st with
  | nil => simpa [runEnemies] using h
  | cons e rest ih =>
      rw [runEnemies_fst_cons]
      exact enemyStep_health_le _ _ _ _ _ _ (ih st h)

theorem tickPre_health_le (dt : ℚ) (st : GState) (h : st.health ≤ 100) :
    (tickPre dt st).health ≤ 100 := by
  unfold tickPre
  dsimp only
  split <;> split
  all_goals first
    | exact h
    | (rw [show maxHealth = (100 : ℚ) from rfl]; exact min_le_right _ _)

theorem updateGameLogic_health_le (env : Env)
    (sf width height ct dt ar : ℚ) (d : SpawnDraws) (st : GState)
    (h : st.health ≤ 100) :
    (updateGameLogic env sf width height ct dt d ar st).health ≤ 100 := by
  unfold updateGameLogic
  dsimp only
  have h1 := tickPre_health_le dt st h
  split <;> split <;>
    (try dsimp only) <;> exact runEnemies_health_le _ _ _ _ _ _ h1

theorem tickPre_no_regen (dt : ℚ) (st : GState)
    (h : 0 < (tickPre dt st).invulnTimer) :
    (tickPre dt st).health = st.health := by
  by_cases hc : st.health < maxHealth
      ∧ (if st.invulnTimer > 0 then st.invulnTimer - dt else st.invulnTimer) ≤ 0
  · exfalso
    unfold tickPre at h
    dsimp only at h
    rw [if_pos hc] at h
    dsimp only at h
    linarith [hc.2]
  · unfold tickPre
    dsimp only
    rw [if_neg hc]

theorem enemyStep_neg_health_gameOver (env : Env) (sf width ct : ℚ) (st : GState)
    (e : FishEntity) (h0 : 0 ≤ st.health)
    (hneg : (enemyStep env sf width ct st e).1.health < 0) :
    (enemyStep env sf width ct st e).1.gameOver = true := by
  unfold enemyStep at hneg ⊢
  dsimp only at hneg ⊢
  obtain ⟨hps, hpspeed, hh, hit, hsc, hgo⟩ :=
    steerPhase_state_fields env sf ct st e (pdist env st.player.x st.player.y e.x e.y)
  by_cases hdist : pdist env st.player.x st.player.y e.x e.y
      < (steerPhase env sf ct st e (pdist env st.player.x st.player.y e.x e.y)).1.player.size * 0.6
        + (steerPhase env sf ct st e (pdist env st.player.x st.player.y e.x e.y)).2.size * 0.6
  · by_cases hsz : (steerPhase env sf ct st e
        (pdist env st.player.x st.player.y e.x e.y)).1.player.size
        ≥ (steerPhase env sf ct st e (pdist env st.player.x st.player.y e.x e.y)).2.size
    · obtain ⟨-, -, c3, -, -⟩ := resolveEnemy_consume _ _ _ _ _ hdist hsz
      rw [c3, hh] at hneg
      have : maxHealth = 100 := rfl
      rw [this] at hneg
      have : (0 : ℚ) ≤ min (st.health + 10) 100 := le_min (by linarith) (by norm_num)
      linarith
    · by_cases hinv : (steerPhase env sf ct st e
          (pdist env st.player.x st.player.y e.x e.y)).1.invulnTimer ≤ 0
      · obtain ⟨d1, -, -, d4⟩ := resolveEnemy_damage _ _ _ _ _ hdist hsz hinv
        apply d4
        rw [d1] at hneg
        linarith
      · rw [resolveEnemy_blocked _ _ _ _ _ hsz hinv, hh] at hneg
        linarith
  · rw [resolveEnemy_noCollision _ _ _ _ _ hdist, hh] at hneg
    linarith

/-- C3 (amended): health never exceeds 100 through a full tick, and the
passive regeneration never fires while the (decremented) invulnerability
timer is still positive; health is, however, not clamped below — the fatal
hit that drives it negative also sets the game-over state in the same
step. -/
theorem C3_health_bounds :
    (∀ (env : Env) (sf width height ct dt ar : ℚ) (d : SpawnDraws) (st : GState),
        st.health ≤ 100 →
        (updateGameLogic env sf width height ct dt d ar st).health ≤ 100)
    ∧ (∀ (dt : ℚ) (st : GState), 0 < (tickPre dt st).invulnTimer →
        (tickPre dt st).health = st.health)
    ∧ (∀ (env : Env) (sf width ct : ℚ) (st : GState) (e : FishEntity),
        0 ≤ st.health → (enemyStep env sf width ct st e).1.health < 0 →
        (enemyStep env sf width ct st e).1.gameOver = true) :=
  ⟨fun env sf width height ct dt ar d st h =>
      updateGameLogic_health_le env sf width height ct dt ar d st h,
   fun dt st h => tickPre_no_regen dt st h,
   fun env sf width ct st e h0 hneg =>
      enemyStep_neg_health_gameOver env sf width ct st e h0 hneg⟩

/-- The C3 counterexample state: a size-10 player at health 30. -/
def c3state : GState :=
  ⟨⟨0, 0, 0, 10, 0, 0, (255, 255, 255), 0, 0, FishVariant.player⟩,
    30, 0, 0, 0, 0, 0, 0, 0, [], [], false, none, none⟩

/-- C3 counterexample: a titan hit (damage 60) at health 30 leaves the
health field at −30, strictly below 0 — the claimed lower bound 0 fails. -/
theorem C3_counterexample :
    (enemyStep nearEnv 1 800 0 c3state titan50).1.health < 0 := by
  norm_num [enemyStep, steerPhase, resolveEnemy, pdist, nearEnv, c3state, titan50,
    actuallyPredator, detectionRange, chaseSpeedMultiplier, steerStrength, lerp,
    constrain, mapRange, maxHealth]

/-- Witness for C3: all three amended parts instantiated concretely. -/
theorem C3_health_bounds_witness :
    (baseState.health ≤ 100
      ∧ (updateGameLogic nearEnv 1 800 600 0 16 c2draws 0.5 baseState).health ≤ 100)
    ∧ (0 < (tickPre 16 invulnState).invulnTimer
      ∧ (tickPre 16 invulnState).health = invulnState.health)
    ∧ (0 ≤ c3state.health
      ∧ ((enemyStep nearEnv 1 800 0 c3state titan50).1.health < 0 →
          (enemyStep nearEnv 1 800 0 c3state titan50).1.gameOver = true)) :=
  ⟨⟨by norm_num [baseState],
    C3_health_bounds.1 nearEnv 1 800 600 0 16 0.5 c2draws baseState
      (by norm_num [baseState])⟩,
   ⟨by norm_num [tickPre, invulnState, baseState, basePlayer, maxHealth],
    C3_health_bounds.2.1 16 invulnState
      (by norm_num [tickPre, invulnState, baseState, basePlayer, maxHealth])⟩,
   ⟨by norm_num [c3state],
    fun hneg => C3_health_bounds.2.2 nearEnv 1 800 0 c3state titan50
      (by norm_num [c3state]) hneg⟩⟩

end FishGame

namespace FishGame

/-! ### C5: titan pull range -/

theorem steerPhase_titan_pull (env : Env) (sf ct : ℚ) (st : GState)
    (e : FishEntity) (dp : ℚ)
    (hvar : e.variant = FishVariant.titan)
    (hpred : actuallyPredator st.player.size e.size = true) :
    (dp < 500 * sf →
        (steerPhase env sf ct st e dp).1.player.x
          = st.player.x
            + env.cos (env.atan2 (e.y - st.player.y) (e.x - st.player.x)) * (0.4 * sf)
        ∧ (steerPhase env sf ct st e dp).1.player.y
          = st.player.y
            + env.sin (env.atan2 (e.y - st.player.y) (e.x - st.player.x)) * (0.4 * sf)
        ∧ (steerPhase env sf ct st e dp).1.screenShake
          = (if dp < 200 * sf then st.screenShake + 0.2 else st.screenShake))
    ∧ (¬ dp < 500 * sf → (steerPhase env sf ct st e dp).1 = st) := by
  constructor
  · intro h500
    have hdet : dp < detectionRange e.variant sf := by
      rw [hvar]; exact h500
    unfold steerPhase
    dsimp only
    rw [if_pos ⟨hpred, hdet⟩]
    dsimp only
    rw [if_pos hvar, if_pos hvar]
    exact ⟨rfl, rfl, rfl⟩
  · intro h500
    have hdet : ¬ (actuallyPredator st.player.size e.size = true
        ∧ dp < detectionRange e.variant sf) := by
      rintro ⟨-, hc⟩
      rw [hvar] at hc
      exact h500 hc
    unfold steerPhase
    dsimp only
    rw [if_neg hdet]

/-- C5 (amended): while the titan is predatory, the pull on the player
applies at every distance inside the full 500·scale detection radius — the
pull region is not a strictly smaller sub-radius — and only the added
screen-shake is restricted to the closer 200·scale sub-radius. -/
theorem C5_titan_pull_range (env : Env) (sf ct : ℚ) (st : GState)
    (e : FishEntity) (dp : ℚ)
    (hvar : e.variant = FishVariant.titan)
    (hpred : e.size > st.player.size) :
    (dp < 500 * sf →
        (steerPhase env sf ct st e dp).1.player.x
          = st.player.x
            + env.cos (env.atan2 (e.y - st.player.y) (e.x - st.player.x)) * (0.4 * sf)
        ∧ (steerPhase env sf ct st e dp).1.player.y
          = st.player.y
            + env.sin (env.atan2 (e.y - st.player.y) (e.x - st.player.x)) * (0.4 * sf)
        ∧ (steerPhase env sf ct st e dp).1.screenShake
          = (if dp < 200 * sf then st.screenShake + 0.2 else st.screenShake))
    ∧ (¬ dp < 500 * sf → (steerPhase env sf ct st e dp).1 = st) :=
  steerPhase_titan_pull env sf ct st e dp hvar
    (by simp only [actuallyPredator, decide_eq_true_eq]; exact hpred)

/-- A size-10 player at the origin with full health. -/
def c5state : GState :=
  ⟨⟨0, 0, 0, 10, 0, 0, (255, 255, 255), 0, 0, FishVariant.player⟩,
    100, 0, 0, 0, 0, 0, 0, 0, [], [], false, none, none⟩

/-- A titan of size 50 at distance `dp` straight to the right. -/
def c5titan (dp : ℚ) : FishEntity :=
  ⟨3, dp, 0, 50, 0, 0, (50, 70, 90), 0, 0, FishVariant.titan⟩

/-- Oracle for the C5 family: the only sqrt call is on `dp²` and returns
`dp`; `atan2(0, dp) = 0`, `cos 0 = 1`, `sin 0 = 0`. -/
def c5env (dp : ℚ) : Env := ⟨fun _ => dp, fun _ => 1, fun _ => 0, fun _ _ => 0, fun _ => 0.5⟩

theorem c5_eval (dp : ℚ) (h36 : 36 ≤ dp) (h500 : dp < 500) :
    (enemyStep (c5env dp) 1 10000 0 c5state (c5titan dp)).1.player.x = 0.4 := by
  unfold enemyStep
  dsimp only
  have hdp : pdist (c5env dp) c5state.player.x c5state.player.y
      (c5titan dp).x (c5titan dp).y = dp := by
    simp [pdist, c5env]
  rw [hdp]
  have hps := (steerPhase_state_fields (c5env dp) 1 0 c5state (c5titan dp) dp).1
  have hes := (steerPhase_enemy_fields (c5env dp) 1 0 c5state (c5titan dp) dp).1
  have hnc : ¬ dp < (steerPhase (c5env dp) 1 0 c5state (c5titan dp) dp).1.player.size * 0.6
      + (steerPhase (c5env dp) 1 0 c5state (c5titan dp) dp).2.size * 0.6 := by
    rw [hps, hes]
    have h1 : c5state.player.size = 10 := rfl
    have h2 : (c5titan dp).size = 50 := rfl
    rw [h1, h2]
    norm_num
    linarith
  rw [resolveEnemy_noCollision _ _ _ _ _ hnc]
  obtain ⟨hx, -, -⟩ :=
    (steerPhase_titan_pull (c5env dp) 1 0 c5state (c5titan dp) dp rfl
        (by norm_num [actuallyPredator, c5state, c5titan])).1
      (by rw [mul_one]; exact h500)
  rw [hx]
  norm_num [c5state, c5env]

/-- The sub-radius reading of the spec sentence for C5, stated over the
concrete titan-at-distance-`dp` scenario family: some pull radius `r`
strictly smaller than the 500·scale detection radius characterizes exactly
when the titan pull moves the player. -/
def c5SpecSubRadius : Prop :=
  ∃ r : ℚ, r < 500 ∧ ∀ dp : ℚ, 0 ≤ dp →
    ((enemyStep (c5env dp) 1 10000 0 c5state (c5titan dp)).1.player.x
        ≠ c5state.player.x ↔ dp < r)

/-- C5 counterexample: no sub-radius strictly smaller than the detection
radius characterizes the pull — the code pulls at every distance below
500·scale, arbitrarily close to the detection radius itself. -/
theorem C5_counterexample : ¬ c5SpecSubRadius := by
  rintro ⟨r, hr, hall⟩
  have h36 : (36 : ℚ) ≤ max ((r + 500) / 2) 400 :=
    le_trans (by norm_num) (le_max_right _ _)
  have h500 : max ((r + 500) / 2) 400 < 500 := max_lt (by linarith) (by norm_num)
  have h0 : (0 : ℚ) ≤ max ((r + 500) / 2) 400 := le_trans (by norm_num) h36
  have hpull := c5_eval (max ((r + 500) / 2) 400) h36 h500
  have hne : (enemyStep (c5env (max ((r + 500) / 2) 400)) 1 10000 0 c5state
      (c5titan (max ((r + 500) / 2) 400))).1.player.x ≠ c5state.player.x := by
    rw [hpull]
    have : c5state.player.x = 0 := rfl
    rw [this]
    norm_num
  have hlt := (hall (max ((r + 500) / 2) 400) h0).mp hne
  have hge : r ≤ max ((r + 500) / 2) 400 :=
    le_trans (by linarith) (le_max_left _ _)
  linarith

/-- Witness for C5 (amended): the titan at distance 300 (inside the 500
detection radius, outside the 200 shake radius) pulls the player while
leaving the shake unchanged. -/
theorem C5_titan_pull_range_witness :
    ((c5titan 300).variant = FishVariant.titan
      ∧ (c5titan 300).size > c5state.player.size
      ∧ (300 : ℚ) < 500 * 1)
    ∧ ((steerPhase (c5env 300) 1 0 c5state (c5titan 300) 300).1.player.x
        = c5state.player.x
          + (c5env 300).cos ((c5env 300).atan2 ((c5titan 300).y - c5state.player.y)
              ((c5titan 300).x - c5state.player.x)) * (0.4 * 1)
      ∧ (steerPhase (c5env 300) 1 0 c5state (c5titan 300) 300).1.player.y
        = c5state.player.y
          + (c5env 300).sin ((c5env 300).atan2 ((c5titan 300).y - c5state.player.y)
              ((c5titan 300).x - c5state.player.x)) * (0.4 * 1)
      ∧ (steerPhase (c5env 300) 1 0 c5state (c5titan 300) 300).1.screenShake
        = (if (300 : ℚ) < 200 * 1 then c5state.screenShake + 0.2
            else c5state.screenShake)) :=
  ⟨⟨rfl, by norm_num [c5titan, c5state], by norm_num⟩,
   (C5_titan_pull_range (c5env 300) 1 0 c5state (c5titan 300) 300 rfl
       (by norm_num [c5titan, c5state])).1 (by norm_num)⟩

end FishGame

namespace FishGame

/-! ### C6: off-screen pruning vs collision order -/

theorem resolveEnemy_offscreen_removed (sf width : ℚ) (st : GState) (dp : ℚ)
    (e : FishEntity)
    (hoff : e.x + e.vx < -300 * sf ∨ e.x + e.vx > width + 300 * sf) :
    (resolveEnemy sf width st dp e).2.removed = true := by
  unfold resolveEnemy
  dsimp only
  repeat' split
  all_goals rfl

theorem resolveEnemy_consume_offscreen (sf width : ℚ) (st : GState) (dp : ℚ)
    (e : FishEntity)
    (hdist : dp < st.player.size * 0.6 + e.size * 0.6)
    (hsize : st.player.size ≥ e.size)
    (hoff : e.x + e.vx < -300 * sf ∨ e.x + e.vx > width + 300 * sf) :
    (resolveEnemy sf width st dp e).1.score = st.score + ⌊e.size / sf⌋
    ∧ (resolveEnemy sf width st dp e).2 = EnemyDisp.goneAndTail := by
  unfold resolveEnemy
  dsimp only
  rw [if_pos hdist, if_pos hsize]
  dsimp only
  rw [if_pos (Eq.refl true), if_pos hoff]
  exact ⟨rfl, rfl⟩

/-- C6 (amended): an enemy whose post-move x lies beyond the 300·scale
margin is removed from the list, but only after collision resolution has
been attempted for it in the same iteration: if it is also within collision
range and consumable, the consume still happens (score increases) and the
subsequent off-screen splice removes the next already-processed survivor. -/
theorem C6_offscreen_prune (sf width : ℚ) (st : GState) (dp : ℚ)
    (e : FishEntity)
    (hoff : e.x + e.vx < -300 * sf ∨ e.x + e.vx > width + 300 * sf) :
    (resolveEnemy sf width st dp e).2.removed = true
    ∧ (dp < st.player.size * 0.6 + e.size * 0.6 → st.player.size ≥ e.size →
        (resolveEnemy sf width st dp e).1.score = st.score + ⌊e.size / sf⌋
        ∧ (resolveEnemy sf width st dp e).2 = EnemyDisp.goneAndTail) :=
  ⟨resolveEnemy_offscreen_removed sf width st dp e hoff,
   fun hdist hsize => resolveEnemy_consume_offscreen sf width st dp e hdist hsize hoff⟩

/-- A very large player (size 600) at the origin. -/
def c6state : GState :=
  ⟨⟨0, 0, 0, 600, 0, 0, (255, 255, 255), 0, 0, FishVariant.player⟩,
    50, 0, 0, 0, 0, 0, 0, 0, [], [], false, none, none⟩

/-- A prey of size 50 already beyond the left margin (x = −310). -/
def c6enemy : FishEntity := ⟨4, -310, 0, 50, 0, 0, (0, 255, 100), 0, 0, FishVariant.prey⟩

/-- Oracle for C6: the only sqrt call is on 310² and returns 310. -/
def c6env : Env := ⟨fun _ => 310, fun _ => 1, fun _ => 0, fun _ _ => 0, fun _ => 0.5⟩

/-- C6 counterexample: the enemy sits beyond the left margin
(x = −310 < −300·scale) and stays there after moving, yet the collision is
still resolved in the same iteration: it is consumed (score +50, player
grows to 605) and only then spliced, the second splice of the stale
reference removing one more already-processed enemy (`goneAndTail`). -/
theorem C6_counterexample :
    (enemyStep c6env 1 800 0 c6state c6enemy).1.score = 50
    ∧ (enemyStep c6env 1 800 0 c6state c6enemy).1.player.size = 605
    ∧ (enemyStep c6env 1 800 0 c6state c6enemy).2 = EnemyDisp.goneAndTail
    ∧ c6enemy.x < -300 * 1 := by
  refine ⟨?_, ?_, ?_, by norm_num [c6enemy]⟩ <;>
    norm_num [enemyStep, steerPhase, resolveEnemy, pdist, c6env, c6state, c6enemy,
      actuallyPredator, detectionRange, chaseSpeedMultiplier, steerStrength, lerp,
      constrain, mapRange, maxHealth]

end FishGame

namespace FishGame

/-! ### C10: per-frame enemy mutations are position/velocity only -/

theorem resolveEnemy_keep (sf width : ℚ) (st : GState) (dp : ℚ) (e e2 : FishEntity)
    (h : (resolveEnemy sf width st dp e).2 = EnemyDisp.keep e2) :
    e2 = { e with x := e.x + e.vx, y := e.y + e.vy } := by
  unfold resolveEnemy at h
  dsimp only at h
  repeat' split at h
  all_goals cases h
  all_goals rfl

/-- C10: an enemy that survives its loop iteration keeps its size, speed,
color, variant, noise offset and id — the per-frame update only changes its
position and velocity, so enemy sizes stay fixed after spawn and only the
player ever grows. -/
theorem C10_enemy_fields_fixed (env : Env) (sf width ct : ℚ) (st : GState)
    (e e2 : FishEntity)
    (h : (enemyStep env sf width ct st e).2 = EnemyDisp.keep e2) :
    e2.size = e.size ∧ e2.speed = e.speed ∧ e2.color = e.color
    ∧ e2.variant = e.variant ∧ e2.noiseOffset = e.noiseOffset ∧ e2.id = e.id := by
  unfold enemyStep at h
  dsimp only at h
  have h2 := resolveEnemy_keep _ _ _ _ _ _ h
  obtain ⟨hesize, hespeed, hecol, hevar, heno, heid, hex, hey⟩ :=
    steerPhase_enemy_fields env sf ct st e (pdist env st.player.x st.player.y e.x e.y)
  rw [h2]
  exact ⟨hesize, hespeed, hecol, hevar, heno, heid⟩

/-- Oracle for the C10 witness: the only sqrt call is on 500² and returns
500; noise 0.5 makes the wander drift vanish. -/
def c10env : Env := ⟨fun _ => 500, fun _ => 1, fun _ => 0, fun _ _ => 0, fun _ => 0.5⟩

/-- A prey far ahead of the player, cruising right at speed 2. -/
def c10enemy : FishEntity := ⟨5, 500, 0, 5, 2, 0, (0, 255, 100), 2, 0, FishVariant.prey⟩

/-- The same prey one tick later: only x moved (by vx = 2). -/
def c10kept : FishEntity := ⟨5, 502, 0, 5, 2, 0, (0, 255, 100), 2, 0, FishVariant.prey⟩

/-- Witness for C10: the surviving prey is kept with every non-kinematic
field unchanged. -/
theorem C10_enemy_fields_fixed_witness :
    (enemyStep c10env 1 800 0 baseState c10enemy).2 = EnemyDisp.keep c10kept
    ∧ (c10kept.size = c10enemy.size ∧ c10kept.speed = c10enemy.speed
      ∧ c10kept.color = c10enemy.color ∧ c10kept.variant = c10enemy.variant
      ∧ c10kept.noiseOffset = c10enemy.noiseOffset ∧ c10kept.id = c10enemy.id) :=
  ⟨by
    have hpt : (FishVariant.prey = FishVariant.titan) = False := by simp
    norm_num [enemyStep, steerPhase, resolveEnemy, pdist, c10env, c10enemy, c10kept,
      baseState, basePlayer, actuallyPredator, detectionRange, chaseSpeedMultiplier,
      steerStrength, lerp, constrain, mapRange, maxHealth, hpt],
   C10_enemy_fields_fixed c10env 1 800 0 baseState c10enemy c10kept
     (by
      have hpt : (FishVariant.prey = FishVariant.titan) = False := by simp
      norm_num [enemyStep, steerPhase, resolveEnemy, pdist, c10env, c10enemy, c10kept,
        baseState, basePlayer, actuallyPredator, detectionRange, chaseSpeedMultiplier,
        steerStrength, lerp, constrain, mapRange, maxHealth, hpt])⟩

end FishGame

namespace FishGame

/-- Witness for C6 (amended): the off-screen prey of the counterexample
scenario, resolved directly by the collision/prune section. -/
theorem C6_offscreen_prune_witness :
    (c6enemy.x + c6enemy.vx < -300 * 1 ∨ c6enemy.x + c6enemy.vx > 800 + 300 * 1)
    ∧ (resolveEnemy 1 800 c6state 310 c6enemy).2.removed = true
    ∧ (resolveEnemy 1 800 c6state 310 c6enemy).1.score = c6state.score + ⌊c6enemy.size / 1⌋
    ∧ (resolveEnemy 1 800 c6state 310 c6enemy).2 = EnemyDisp.goneAndTail := by
  have hoff : c6enemy.x + c6enemy.vx < -300 * 1
      ∨ c6enemy.x + c6enemy.vx > 800 + 300 * 1 := by
    norm_num [c6enemy]
  have h := C6_offscreen_prune 1 800 c6state 310 c6enemy hoff
  exact ⟨hoff, h.1,
    h.2 (by norm_num [c6state, c6enemy]) (by norm_num [c6state, c6enemy])⟩

end FishGame
